import Mathlib

/-!
Shallow embedding of the form-handling subsystem of the splice admin
front end, translated from
`src/front_end/src/components/AdGroups/AdGroupForm/AdGroupForm.js`.

The component is a React class whose handlers dispatch Redux actions and
perform browser side effects.  Each handler is embedded as a pure function
from the props it reads to the list of effects it emits, in emission order.
External collaborators (the parsley validator outcome, the serializeJSON
result of the form, the checked state of the type checkbox, the API
response) are inputs to the handlers, exactly as the source reads them.
-/

set_option autoImplicit false

namespace Splice

/-- The entity details record for an AdGroup (the fields this component reads
and writes; spec data model).  A field a JS object lacks is `none`. -/
structure Details where
  id : Option Nat := none
  name : Option String := none
  explanation : Option String := none
  type : Option String := none
  campaign_id : Option Nat := none
  channel_id : Option Nat := none
  locale : Option String := none
  categories : List String := []
  frequency_cap_daily : Option String := none
  frequency_cap_total : Option String := none
  paused : Bool := false
  deriving DecidableEq

/-- Global App slice read by the component: the dirty flag `formChanged`. -/
structure AppState where
  formChanged : Bool := false
  deriving DecidableEq

/-- AdGroup slice read by the component: the details record and the
in-flight flag `isSaving` (rendered as a spinner). -/
structure AdGroupState where
  details : Details := {}
  isSaving : Bool := false
  deriving DecidableEq

/-- The props the component reads (the connected store state plus the
`editMode` flag). -/
structure Props where
  App : AppState := {}
  AdGroup : AdGroupState := {}
  editMode : Bool := false
  deriving DecidableEq

/-- Result of `$(form).serializeJSON()`.  The `type` checkbox serializes to
presence or absence of the `type` key (value "true" when checked); the other
named inputs are kept as an association list, untouched by the handlers. -/
structure FormData where
  type : Option String := none
  fields : List (String × String) := []
  deriving DecidableEq

/-- The `result` object of a success response (`response.result.id` is the
only field the component reads). -/
structure ApiResult where
  id : Nat
  deriving DecidableEq

/-- An API response: either a `result` object is present (success) or it is
absent and `message` carries the server error text. -/
structure Response where
  result : Option ApiResult := none
  message : Option String := none
  deriving DecidableEq

/-- The effects a handler can emit: dispatched Redux actions, the network
operations, and the browser side effects (scroll, history.pushState).
`createAdGroup` and `updateAdGroup` carry the payload in its structured form;
the source passes `JSON.stringify` of the same object, which does not alter
its fields. -/
inductive Effect where
  | displayMessage (severity : String) (text : Option String)
  | shownMessage
  | formChanged
  | formSaved
  | adGroupSetDetailsVar (key value : String)
  | createAdGroup (data : FormData)
  | updateAdGroup (id : Option Nat) (data : FormData)
  | scrollTo (x y : Nat)
  | pushState (path : String)
  deriving DecidableEq

/-- `handleChange` (source lines 203-207): dispatch `formChanged()` only when
`this.props.App.formChanged !== true`. -/
def handleChange (props : Props) : List Effect :=
  if props.App.formChanged ≠ true then [Effect.formChanged] else []

/-- `handleSwitch` (source lines 209-218): call `handleChange`, then dispatch
`adGroupSetDetailsVar('type', value)` where `value` is "directory" when the
checkbox is checked and "suggested" otherwise. -/
def handleSwitch (props : Props) (checked : Bool) : List Effect :=
  handleChange props ++
    [Effect.adGroupSetDetailsVar "type" (if checked then "directory" else "suggested")]

/-- `componentWillMount` (source lines 25-29): if the details record has no
`type` field, dispatch `adGroupSetDetailsVar('type', 'suggested')`. -/
def componentWillMount (props : Props) : List Effect :=
  if props.AdGroup.details.type = none then
    [Effect.adGroupSetDetailsVar "type" "suggested"]
  else []

/-- The `type` fix-up inside `handleFormSubmit` (source lines 230-235): if the
serialized form data lacks a `type` key it is forced to "suggested", else to
"directory". -/
def fixupType (formData : FormData) : FormData :=
  if formData.type = none then { formData with type := some "suggested" }
  else { formData with type := some "directory" }

/-- `handleCreate` (source lines 255-263): dispatch `createAdGroup(data)`. -/
def handleCreate (data : FormData) : List Effect :=
  [Effect.createAdGroup data]

/-- `handleUpdate` (source lines 265-274): dispatch
`updateAdGroup(this.props.AdGroup.details.id, data)`. -/
def handleUpdate (props : Props) (data : FormData) : List Effect :=
  [Effect.updateAdGroup props.AdGroup.details.id data]

/-- `handleFormSubmit` (source lines 220-253).  `valid` is the outcome of
`form.validate()` and `formData` the `serializeJSON()` result, both computed
by external libraries at the call site.  On a valid form the `type` key is
fixed up and exactly one of `handleUpdate` / `handleCreate` runs, chosen by
`editMode`; otherwise an error notification is raised, marked shown, and the
view scrolled to the top.  Note the source consults neither
`AdGroup.isSaving` nor any other guard before dispatching. -/
def handleFormSubmit (props : Props) (valid : Bool) (formData : FormData) : List Effect :=
  if valid then
    let data := fixupType formData
    if props.editMode then handleUpdate props data
    else handleCreate data
  else
    [Effect.displayMessage "error" (some "Validation Errors"), Effect.shownMessage,
     Effect.scrollTo 0 0]

/-- `handleResponse` (source lines 276-294): when `response.result` is absent,
raise an error notification with the server message, mark it shown and scroll
to the top; otherwise raise the mode-dependent success notification, dispatch
`formSaved()` and push the route `/adgroups/` followed by the result id. -/
def handleResponse (props : Props) (response : Response) : List Effect :=
  match response.result with
  | none =>
      [Effect.displayMessage "error" response.message, Effect.shownMessage,
       Effect.scrollTo 0 0]
  | some r =>
      (if props.editMode then
         [Effect.displayMessage "success" (some "Ad Group Updated Successfully")]
       else
         [Effect.displayMessage "success" (some "Ad Group Created Successfully")]) ++
      [Effect.formSaved, Effect.pushState ("/adgroups/" ++ toString r.id)]

/-- `render` (source lines 50-54): the spinner is shown exactly when
`AdGroup.isSaving` holds.  Nothing in `render` disables the submit button. -/
def renderSpinner (props : Props) : Bool :=
  props.AdGroup.isSaving

/-- `render` (source line 163): the categories select carries
`disabled=(details.type === 'directory')`, and its enclosing div gets the
`hide` class under the same condition (line 160). -/
def categoriesDisabled (props : Props) : Bool :=
  props.AdGroup.details.type == some "directory"

/-- `render` (source lines 171, 182, 188): the budget inputs are disabled and
their section hidden exactly when `details.type === 'directory'`. -/
def budgetDisabled (props : Props) : Bool :=
  props.AdGroup.details.type == some "directory"

/-- Modelled from the spec: the reducers behind the dispatched actions.  The
files `actions/App/AppActions.js` and `actions/AdGroups/AdGroupActions.js`
are not among the sources, so the state transition of each action follows the
spec: the dirty flag is "set on any field change, cleared on successful
save", and `adGroupSetDetailsVar(key, value)` sets the named field of the
entity details record (the component only ever dispatches the `type` key).
Notification, network, scroll and navigation effects do not touch this
state. -/
def applyEffect (s : Props) (e : Effect) : Props :=
  match e with
  | Effect.formChanged => { s with App := { s.App with formChanged := true } }
  | Effect.formSaved => { s with App := { s.App with formChanged := false } }
  | Effect.adGroupSetDetailsVar key value =>
      if key = "type" then
        { s with AdGroup := { s.AdGroup with
            details := { s.AdGroup.details with type := some value } } }
      else s
  | _ => s

/-- Fold a list of emitted effects over the store state, in emission order. -/
def applyEffects (s : Props) (effects : List Effect) : Props :=
  effects.foldl applyEffect s

/-- The store state right after mounting: the `componentWillMount` effects
applied to the initial props. -/
def mountState (s : Props) : Props :=
  applyEffects s (componentWillMount s)

/-- A sequence of `n` field-change events: each fires `handleChange` on the
current store state and applies its effects.  Returns the final state and
all effects in emission order. -/
def runChanges : Props → Nat → Props × List Effect
  | s, 0 => (s, [])
  | s, Nat.succ n =>
      let effects := handleChange s
      let s1 := applyEffects s effects
      let rest := runChanges s1 n
      (rest.1, effects ++ rest.2)

/-- How many `formChanged` actions a list of effects contains. -/
def countFormChanged (effects : List Effect) : Nat :=
  effects.count Effect.formChanged

/-- Whether an effect is a network operation. -/
def isNetworkOp : Effect → Bool
  | Effect.createAdGroup _ => true
  | Effect.updateAdGroup _ _ => true
  | _ => false

/-- The network operations among a list of effects. -/
def networkOps (effects : List Effect) : List Effect :=
  effects.filter isNetworkOp

/-- The payload of an effect, when it is a network operation. -/
def payloadOf : Effect → Option FormData
  | Effect.createAdGroup d => some d
  | Effect.updateAdGroup _ d => some d
  | _ => none

/-- The payloads of the network operations among a list of effects. -/
def payloads (effects : List Effect) : List FormData :=
  effects.filterMap payloadOf

/-- Claim C1: on every API response holding a result object, `handleResponse`
raises one success notification, whose text is "Ad Group Updated Successfully"
in edit mode and "Ad Group Created Successfully" in create mode, dispatches
`formSaved` (which clears the dirty flag), and navigates to the route path
`/adgroups/` followed by the result id. -/
theorem C1_handleResponse_success (props : Props) (n : Nat) (m : Option String) :
    handleResponse props { result := some { id := n }, message := m } =
      (if props.editMode then
         [Effect.displayMessage "success" (some "Ad Group Updated Successfully")]
       else
         [Effect.displayMessage "success" (some "Ad Group Created Successfully")]) ++
      [Effect.formSaved, Effect.pushState ("/adgroups/" ++ toString n)] ∧
    (applyEffects props
        (handleResponse props { result := some { id := n }, message := m })).App.formChanged
      = false := by
  refine ⟨rfl, ?_⟩
  cases h : props.editMode <;>
    simp [handleResponse, applyEffects, applyEffect, h]

/-- Claim C2: on every API response whose result field is absent,
`handleResponse` raises an error notification carrying the response message,
marks the notification shown, scrolls to the top, and pushes no route. -/
theorem C2_handleResponse_failure (props : Props) (m : Option String) :
    handleResponse props { result := none, message := m } =
      [Effect.displayMessage "error" m, Effect.shownMessage, Effect.scrollTo 0 0] ∧
    ∀ path : String,
      Effect.pushState path ∉ handleResponse props { result := none, message := m } := by
  refine ⟨rfl, ?_⟩
  intro path
  simp [handleResponse]

/-- Claim C3: on a submit whose client-side validation fails, `handleFormSubmit`
emits exactly an error notification, the shown mark and a scroll to the top,
and in particular dispatches no network operation. -/
theorem C3_invalid_submit (props : Props) (formData : FormData) :
    handleFormSubmit props false formData =
      [Effect.displayMessage "error" (some "Validation Errors"), Effect.shownMessage,
       Effect.scrollTo 0 0] ∧
    networkOps (handleFormSubmit props false formData) = [] := by
  refine ⟨rfl, ?_⟩
  simp [handleFormSubmit, networkOps, isNetworkOp]

/-- Claim C4: on every validated submit the dispatched payload is the type
fix-up of the serialized form data; its type field is "suggested" exactly when
the form data has no type key, "directory" exactly when it has one, and never
any other value. -/
theorem C4_payload_type (props : Props) (formData : FormData) :
    payloads (handleFormSubmit props true formData) = [fixupType formData] ∧
    ((fixupType formData).type = some "suggested" ↔ formData.type = none) ∧
    ((fixupType formData).type = some "directory" ↔ formData.type ≠ none) ∧
    ((fixupType formData).type = some "suggested" ∨
      (fixupType formData).type = some "directory") := by
  refine ⟨?_, ?_, ?_, ?_⟩
  · cases h : props.editMode <;>
      simp [handleFormSubmit, handleCreate, handleUpdate, payloads, payloadOf, h]
  all_goals
    rcases h : formData.type with _ | t <;>
      simp [fixupType, h]

/-- Claim C5: on every validated submit exactly one network operation is
dispatched: `updateAdGroup` with the details id in edit mode, `createAdGroup`
otherwise, and nothing else. -/
theorem C5_one_network_op (props : Props) (formData : FormData) :
    handleFormSubmit props true formData =
      [if props.editMode then
         Effect.updateAdGroup props.AdGroup.details.id (fixupType formData)
       else Effect.createAdGroup (fixupType formData)] ∧
    (networkOps (handleFormSubmit props true formData)).length = 1 := by
  cases h : props.editMode <;>
    simp [handleFormSubmit, handleCreate, handleUpdate, networkOps, isNetworkOp, h]

/-- Once the dirty flag is set, further field-change events emit nothing. -/
theorem runChanges_of_dirty (n : Nat) (s : Props) (h : s.App.formChanged = true) :
    (runChanges s n).2 = [] := by
  induction n generalizing s with
  | zero => rfl
  | succ n ih =>
      simpa [runChanges, handleChange, h, applyEffects] using ih s h

/-- Claim C6: over any sequence of field-change events, the `formChanged`
action is dispatched exactly once, on the first change when the dirty flag is
clear, and never while the flag is already set. -/
theorem C6_formChanged_once (s : Props) (n : Nat) :
    countFormChanged (runChanges s n).2 =
      if s.App.formChanged = true then 0 else min n 1 := by
  induction n generalizing s with
  | zero => cases h : s.App.formChanged <;> simp [runChanges, countFormChanged, h]
  | succ n ih =>
      cases h : s.App.formChanged with
      | true =>
          simp [countFormChanged, runChanges_of_dirty (Nat.succ n) s h, h]
      | false =>
          have hs1 : (applyEffects s [Effect.formChanged]).App.formChanged = true := by
            simp [applyEffects, applyEffect]
          simp [runChanges, handleChange, h, countFormChanged,
                runChanges_of_dirty n _ hs1]

/-- Claim C7 counterexample: with the saving flag set (a prior submission in
flight), a valid submit on the same form still dispatches a network
operation. -/
theorem C7_counterexample :
    ({ AdGroup := { isSaving := true } } : Props).AdGroup.isSaving = true ∧
    networkOps (handleFormSubmit ({ AdGroup := { isSaving := true } } : Props) true {})
      ≠ [] := by
  refine ⟨rfl, ?_⟩
  simp [handleFormSubmit, handleCreate, networkOps, isNetworkOp]

/-- Claim C7 amended: `handleFormSubmit` never consults `AdGroup.isSaving`:
its effects are identical whatever the saving flag, so a valid submit while a
prior submission is in flight dispatches its network operation exactly as
when idle; the flag is surfaced only as the spinner in `render`. -/
theorem C7_isSaving_not_consulted (props : Props) (b valid : Bool)
    (formData : FormData) :
    handleFormSubmit { props with AdGroup := { props.AdGroup with isSaving := b } }
        valid formData =
      handleFormSubmit props valid formData ∧
    renderSpinner props = props.AdGroup.isSaving := by
  refine ⟨?_, rfl⟩
  cases valid <;> cases h : props.editMode <;>
    simp [handleFormSubmit, handleCreate, handleUpdate, h]

/-- After `handleSwitch`, the type field of the details record is "directory"
when the checkbox is checked and "suggested" otherwise. -/
theorem handleSwitch_type (t : Props) (checked : Bool) :
    (applyEffects t (handleSwitch t checked)).AdGroup.details.type =
      some (if checked then "directory" else "suggested") := by
  cases hc : checked <;> cases h : t.App.formChanged <;>
    simp [handleSwitch, handleChange, h, applyEffects, applyEffect]

/-- Claim C8: `handleSwitch` changes only the type field of the details and
the dirty flag: the resulting details equal the old ones with type set to
"directory" when checked and "suggested" otherwise; categories and both
frequency caps keep their prior values, the saving flag and mode are
untouched, and the category and budget controls end up disabled exactly when
checked. -/
theorem C8_handleSwitch_frame (s : Props) (checked : Bool) :
    (applyEffects s (handleSwitch s checked)).AdGroup.details =
      { s.AdGroup.details with
          type := some (if checked then "directory" else "suggested") } ∧
    (applyEffects s (handleSwitch s checked)).App.formChanged = true ∧
    (applyEffects s (handleSwitch s checked)).AdGroup.details.categories
      = s.AdGroup.details.categories ∧
    (applyEffects s (handleSwitch s checked)).AdGroup.details.frequency_cap_daily
      = s.AdGroup.details.frequency_cap_daily ∧
    (applyEffects s (handleSwitch s checked)).AdGroup.details.frequency_cap_total
      = s.AdGroup.details.frequency_cap_total ∧
    (applyEffects s (handleSwitch s checked)).AdGroup.isSaving = s.AdGroup.isSaving ∧
    (applyEffects s (handleSwitch s checked)).editMode = s.editMode ∧
    categoriesDisabled (applyEffects s (handleSwitch s checked)) = checked ∧
    budgetDisabled (applyEffects s (handleSwitch s checked)) = checked := by
  cases hc : checked <;> cases h : s.App.formChanged <;>
    simp [handleSwitch, handleChange, h, applyEffects, applyEffect,
          categoriesDisabled, budgetDisabled]

/-- Claim C9: the dirty flag is set only on a field change and cleared only by
the success branch of `handleResponse`: `formSaved` is emitted by
`handleResponse` exactly when a result object is present, a server-rejected
response leaves the dirty flag untouched, `handleChange` emits `formChanged`
exactly when the flag is clear, and neither branch of the submit nor
`handleSwitch` ever emits `formSaved`, nor the submit any `formChanged`. -/
theorem C9_dirty_flag_transitions (props : Props) (resp : Response)
    (m : Option String) (formData : FormData) (valid checked : Bool) :
    (Effect.formSaved ∈ handleResponse props resp ↔ resp.result ≠ none) ∧
    (applyEffects props
        (handleResponse props { result := none, message := m })).App.formChanged
      = props.App.formChanged ∧
    (Effect.formChanged ∈ handleChange props ↔ props.App.formChanged = false) ∧
    Effect.formSaved ∉ handleFormSubmit props valid formData ∧
    Effect.formChanged ∉ handleFormSubmit props valid formData ∧
    Effect.formSaved ∉ handleSwitch props checked := by
  refine ⟨?_, ?_, ?_, ?_, ?_, ?_⟩
  · rcases resp with ⟨r, mr⟩
    cases r <;> cases h : props.editMode <;> simp [handleResponse, h]
  · simp [handleResponse, applyEffects, applyEffect]
  · cases h : props.App.formChanged <;> simp [handleChange, h]
  · cases valid <;> cases h : props.editMode <;>
      simp [handleFormSubmit, handleCreate, handleUpdate, h]
  · cases valid <;> cases h : props.editMode <;>
      simp [handleFormSubmit, handleCreate, handleUpdate, h]
  · cases h : props.App.formChanged <;> simp [handleSwitch, handleChange, h]

/-- `handleChange` never touches the details record. -/
theorem handleChange_preserves_details (t : Props) :
    (applyEffects t (handleChange t)).AdGroup.details = t.AdGroup.details := by
  cases h : t.App.formChanged <;> simp [handleChange, h, applyEffects, applyEffect]

/-- Neither branch of `handleFormSubmit` touches the details record. -/
theorem handleFormSubmit_preserves_details (t : Props) (valid : Bool)
    (formData : FormData) :
    (applyEffects t (handleFormSubmit t valid formData)).AdGroup.details
      = t.AdGroup.details := by
  cases valid <;> cases h : t.editMode <;>
    simp [handleFormSubmit, handleCreate, handleUpdate, h, applyEffects, applyEffect]

/-- Neither branch of `handleResponse` touches the details record. -/
theorem handleResponse_preserves_details (t : Props) (resp : Response) :
    (applyEffects t (handleResponse t resp)).AdGroup.details = t.AdGroup.details := by
  rcases resp with ⟨r, mr⟩
  cases r <;> cases h : t.editMode <;>
    simp [handleResponse, h, applyEffects, applyEffect]

/-- Claim C10: if the details type is undefined at mount, `componentWillMount`
sets it to "suggested"; hence, for any well-formed incoming type, the mounted
type is one of "suggested" or "directory", and every subsequent handler of the
component keeps it so. -/
theorem C10_type_defined_after_mount (s : Props) (checked valid : Bool)
    (resp : Response) (formData : FormData)
    (h : s.AdGroup.details.type = none ∨ s.AdGroup.details.type = some "suggested" ∨
         s.AdGroup.details.type = some "directory") :
    ((mountState s).AdGroup.details.type = some "suggested" ∨
      (mountState s).AdGroup.details.type = some "directory") ∧
    ((applyEffects (mountState s) (handleSwitch (mountState s) checked)).AdGroup.details.type
        = some "suggested" ∨
      (applyEffects (mountState s) (handleSwitch (mountState s) checked)).AdGroup.details.type
        = some "directory") ∧
    (applyEffects (mountState s) (handleChange (mountState s))).AdGroup.details.type
      = (mountState s).AdGroup.details.type ∧
    (applyEffects (mountState s)
        (handleFormSubmit (mountState s) valid formData)).AdGroup.details.type
      = (mountState s).AdGroup.details.type ∧
    (applyEffects (mountState s) (handleResponse (mountState s) resp)).AdGroup.details.type
      = (mountState s).AdGroup.details.type := by
  refine ⟨?_, ?_, ?_, ?_, ?_⟩
  · rcases h with h1 | h1 | h1 <;>
      simp [mountState, componentWillMount, h1, applyEffects, applyEffect]
  · rw [handleSwitch_type]
    cases checked <;> simp
  · rw [handleChange_preserves_details]
  · rw [handleFormSubmit_preserves_details]
  · rw [handleResponse_preserves_details]

/-- Witness for C10: at the empty props the hypothesis holds and the theorem
applies with concrete arguments. -/
theorem C10_witness :
    ((({} : Props).AdGroup.details.type = none ∨
       ({} : Props).AdGroup.details.type = some "suggested" ∨
       ({} : Props).AdGroup.details.type = some "directory") ∧
     (((mountState {}).AdGroup.details.type = some "suggested" ∨
        (mountState {}).AdGroup.details.type = some "directory") ∧
      ((applyEffects (mountState {}) (handleSwitch (mountState {}) true)).AdGroup.details.type
          = some "suggested" ∨
        (applyEffects (mountState {}) (handleSwitch (mountState {}) true)).AdGroup.details.type
          = some "directory") ∧
      (applyEffects (mountState {}) (handleChange (mountState {}))).AdGroup.details.type
        = (mountState {}).AdGroup.details.type ∧
      (applyEffects (mountState {})
          (handleFormSubmit (mountState {}) true {})).AdGroup.details.type
        = (mountState {}).AdGroup.details.type ∧
      (applyEffects (mountState {}) (handleResponse (mountState {}) {})).AdGroup.details.type
        = (mountState {}).AdGroup.details.type)) :=
  ⟨Or.inl rfl, C10_type_defined_after_mount {} true true {} {} (Or.inl rfl)⟩

end Splice
